import Mathlib

/-
  Shallow embedding of the ArduinoDueHiFi library (src/HiFi.h, src/HiFi.cpp),
  an I2S driver for the SSC peripheral of the SAM3X (Arduino Due).

  The driver is embedded as pure state transformers over an explicit model of
  the driver object (`HiFiClass`) and of the SSC peripheral (`Ssc`).  The
  Atmel libsam helpers (`ssc_set_transmitter`, `ssc_enable_tx`, ...) are
  third-party collaborators that the spec treats as opaque external services;
  they are modelled here by their effect on the peripheral state.  Callbacks
  are C function pointers, modelled by an optional address (`none` = NULL);
  an interrupt-service invocation returns the ordered list of callback
  invocations it performs instead of calling through the pointers.
-/

/-- Audio mode enumeration from HiFi.h. -/
inductive HiFiAudioMode_t where
  | HIFI_AUDIO_MODE_MONO_LEFT
  | HIFI_AUDIO_MODE_MONO_RIGHT
  | HIFI_AUDIO_MODE_STEREO
  deriving DecidableEq, Repr

export HiFiAudioMode_t (HIFI_AUDIO_MODE_MONO_LEFT HIFI_AUDIO_MODE_MONO_RIGHT HIFI_AUDIO_MODE_STEREO)

/-- Clock mode enumeration from HiFi.h. -/
inductive HiFiClockMode_t where
  | HIFI_CLK_MODE_USE_EXT_CLKS
  | HIFI_CLK_MODE_USE_TK_RK_CLK
  deriving DecidableEq, Repr

export HiFiClockMode_t (HIFI_CLK_MODE_USE_EXT_CLKS HIFI_CLK_MODE_USE_TK_RK_CLK)

/-- Channel identity enumeration from HiFi.h: in mono modes only channel 1 is
used; in stereo, channel 1 is left and channel 2 is right. -/
inductive HiFiChannelID_t where
  | HIFI_CHANNEL_ID_1
  | HIFI_CHANNEL_ID_2
  deriving DecidableEq, Repr

export HiFiChannelID_t (HIFI_CHANNEL_ID_1 HIFI_CHANNEL_ID_2)

/- SAM3X SSC register constants (component_ssc.h / ssc.h values). -/

def SSC_RC_YES : Nat := 1

def SSC_RC_NO : Nat := 0

/- TCMR clock-source field values (CKS, bits 0-1). -/

def SSC_TCMR_CKS_MCK : Nat := 0

def SSC_TCMR_CKS_TK : Nat := 1

def SSC_TCMR_CKS_RK : Nat := 2

/- RCMR clock-source field values (CKS, bits 0-1). -/

def SSC_RCMR_CKS_MCK : Nat := 0

def SSC_RCMR_CKS_TK : Nat := 1

def SSC_RCMR_CKS_RK : Nat := 2

/- TCMR/RCMR start-condition field values (START, bits 8-11). -/

def SSC_TCMR_START_CONTINUOUS : Nat := 0x0

def SSC_TCMR_START_RECEIVE : Nat := 0x100

def SSC_TCMR_START_RF_FALLING : Nat := 0x400

def SSC_TCMR_START_RF_RISING : Nat := 0x500

def SSC_RCMR_START_CONTINUOUS : Nat := 0x0

def SSC_RCMR_START_TRANSMIT : Nat := 0x100

def SSC_RCMR_START_RF_FALLING : Nat := 0x400

def SSC_RCMR_START_RF_RISING : Nat := 0x500

/- Clock gating / output / invert constants. -/

def SSC_TCMR_CKG_NONE : Nat := 0

def SSC_TCMR_CKO_NONE : Nat := 0

def SSC_RCMR_CKG_NONE : Nat := 0

def SSC_RCMR_CKO_NONE : Nat := 0

/-- RCMR CKI bit (bit 5): receive data is sampled on clock rising edge. -/
def SSC_RCMR_CKI : Nat := 0x20

/- Frame-mode register constants. -/

def SSC_TFMR_MSBF : Nat := 0x80

def SSC_RFMR_MSBF : Nat := 0x80

def SSC_TFMR_FSOS_NONE : Nat := 0

/- Status / interrupt-enable register bits (SSC_SR / SSC_IER share layout). -/

def SSC_SR_TXRDY : Nat := 0x1

def SSC_SR_RXRDY : Nat := 0x10

def SSC_SR_TXSYN : Nat := 0x400

def SSC_SR_RXSYN : Nat := 0x800

def SSC_SR_TXEN : Nat := 0x10000

def SSC_SR_RXEN : Nat := 0x20000

def SSC_IER_TXRDY : Nat := SSC_SR_TXRDY

def SSC_IER_RXRDY : Nat := SSC_SR_RXRDY

def SSC_IER_TXSYN : Nat := SSC_SR_TXSYN

def SSC_IER_RXSYN : Nat := SSC_SR_RXSYN

/-- Atmel `clock_opt_t` structure (ssc.h): clock options for one direction. -/
structure clock_opt_t where
  ul_cks : Nat
  ul_cko : Nat
  ul_cki : Nat
  ul_ckg : Nat
  ul_period : Nat
  ul_sttdly : Nat
  ul_start_sel : Nat
  deriving DecidableEq, Repr

/-- The all-zero `clock_opt_t`, result of the `memset` in the configure calls. -/
def clock_opt_zero : clock_opt_t := ⟨0, 0, 0, 0, 0, 0, 0⟩

/-- Atmel `data_frame_opt_t` structure (ssc.h): frame options for one direction. -/
structure data_frame_opt_t where
  ul_datlen : Nat
  ul_msbf : Nat
  ul_datnb : Nat
  ul_fslen : Nat
  ul_fsos : Nat
  ul_fsedge : Nat
  deriving DecidableEq, Repr

/-- The all-zero `data_frame_opt_t`, result of the `memset` in the configure calls. -/
def data_frame_opt_zero : data_frame_opt_t := ⟨0, 0, 0, 0, 0, 0⟩

/-- State of the SSC peripheral as far as the driver observes or drives it.
The four status-flag fields are the event/readiness bits of SSC_SR used by
the driver; `tcmr`/`tfmr` (resp. `rcmr`/`rfmr`) hold the committed
transmitter (resp. receiver) configuration; `imr` is the interrupt mask
accumulated by `ssc_enable_interrupt`; `srReads` is ghost instrumentation
counting the reads of the status register performed via `ssc_get_status`. -/
structure Ssc where
  txrdy : Bool
  rxrdy : Bool
  txsyn : Bool
  rxsyn : Bool
  txen : Bool
  rxen : Bool
  tcmr : clock_opt_t
  tfmr : data_frame_opt_t
  rcmr : clock_opt_t
  rfmr : data_frame_opt_t
  imr : Nat
  srReads : Nat
  deriving DecidableEq, Repr

/-- Value of the 32-bit SSC_SR status register assembled from the status flags. -/
def srValue (s : Ssc) : Nat :=
  (if s.txrdy then SSC_SR_TXRDY else 0) |||
  (if s.rxrdy then SSC_SR_RXRDY else 0) |||
  (if s.txsyn then SSC_SR_TXSYN else 0) |||
  (if s.rxsyn then SSC_SR_RXSYN else 0) |||
  (if s.txen then SSC_SR_TXEN else 0) |||
  (if s.rxen then SSC_SR_RXEN else 0)

/-- Collaborator `ssc_get_status`: returns the status-register value.  The
frame-sync event bits TXSYN/RXSYN self-clear on a read of SSC_SR; the ghost
read counter is incremented. -/
def ssc_get_status (s : Ssc) : Nat × Ssc :=
  (srValue s, { s with txsyn := false, rxsyn := false, srReads := s.srReads + 1 })

/-- Collaborator `ssc_is_tx_ready`: queries the transmit-ready line (the
spec treats this service as opaque: it answers whether the transmit-ready
bit is set, without touching the latched event bits). -/
def ssc_is_tx_ready (s : Ssc) : Nat :=
  if s.txrdy then SSC_RC_YES else SSC_RC_NO

/-- Collaborator `ssc_is_rx_ready`: queries the receive-ready line. -/
def ssc_is_rx_ready (s : Ssc) : Nat :=
  if s.rxrdy then SSC_RC_YES else SSC_RC_NO

/-- Collaborator `ssc_set_transmitter`: commits the transmitter clock and
frame options to the hardware (TCMR/TFMR). -/
def ssc_set_transmitter (s : Ssc) (clk : clock_opt_t) (frame : data_frame_opt_t) : Ssc :=
  { s with tcmr := clk, tfmr := frame }

/-- Collaborator `ssc_set_receiver`: commits the receiver clock and frame
options to the hardware (RCMR/RFMR). -/
def ssc_set_receiver (s : Ssc) (clk : clock_opt_t) (frame : data_frame_opt_t) : Ssc :=
  { s with rcmr := clk, rfmr := frame }

/-- Collaborator `ssc_enable_interrupt`: sets bits in the interrupt mask. -/
def ssc_enable_interrupt (s : Ssc) (bits : Nat) : Ssc :=
  { s with imr := s.imr ||| bits }

/-- Collaborator `ssc_enable_tx`: enables the transmitter data path. -/
def ssc_enable_tx (s : Ssc) : Ssc := { s with txen := true }

/-- Collaborator `ssc_disable_tx`: disables the transmitter data path. -/
def ssc_disable_tx (s : Ssc) : Ssc := { s with txen := false }

/-- Collaborator `ssc_enable_rx`: enables the receiver data path. -/
def ssc_enable_rx (s : Ssc) : Ssc := { s with rxen := true }

/-- Collaborator `ssc_disable_rx`: disables the receiver data path. -/
def ssc_disable_rx (s : Ssc) : Ssc := { s with rxen := false }

/-- Collaborator `ssc_reset`: software reset of the peripheral (clears the
control and mode registers; the ghost read counter is untouched). -/
def ssc_reset (s : Ssc) : Ssc :=
  { s with txen := false, rxen := false, imr := 0,
           tcmr := clock_opt_zero, tfmr := data_frame_opt_zero,
           rcmr := clock_opt_zero, rfmr := data_frame_opt_zero }

/- Pin descriptions (Arduino Due core types, fields used by the driver). -/

inductive PioPort where
  | PIOA
  | PIOB
  deriving DecidableEq, Repr

export PioPort (PIOA PIOB)

inductive EPioType where
  | PIO_PERIPH_A
  | PIO_PERIPH_B
  deriving DecidableEq, Repr

export EPioType (PIO_PERIPH_A PIO_PERIPH_B)

def ID_PIOA : Nat := 11

def ID_PIOB : Nat := 12

def PIO_DEFAULT : Nat := 0

def PIN_ATTR_DIGITAL : Nat := 1

def PIO_PA16B_TD : Nat := 0x10000

def PIO_PA15B_TF : Nat := 0x8000

def PIO_PA14B_TK : Nat := 0x4000

def PIO_PB18A_RD : Nat := 0x40000

def PIO_PB17A_RF : Nat := 0x20000

def PIO_PB19A_RK : Nat := 0x80000

/-- Pin description record (the fields of `PinDescription` that the driver
reads; the ADC/PWM/timer fields are constants never consulted and omitted). -/
structure PinDescription where
  pPort : PioPort
  ulPin : Nat
  ulPeripheralId : Nat
  ulPinType : EPioType
  ulPinConfiguration : Nat
  ulPinAttribute : Nat
  deriving DecidableEq, Repr

/-- Transmitter pin table from HiFi.cpp (data pin TD first, then TF, TK). -/
def SSCTXPins : List PinDescription :=
  [ ⟨PIOA, PIO_PA16B_TD, ID_PIOA, PIO_PERIPH_B, PIO_DEFAULT, PIN_ATTR_DIGITAL⟩,
    ⟨PIOA, PIO_PA15B_TF, ID_PIOA, PIO_PERIPH_B, PIO_DEFAULT, PIN_ATTR_DIGITAL⟩,
    ⟨PIOA, PIO_PA14B_TK, ID_PIOA, PIO_PERIPH_B, PIO_DEFAULT, PIN_ATTR_DIGITAL⟩ ]

/-- Receiver pin table from HiFi.cpp (data pin RD first, then RF, RK). -/
def SSCRXPins : List PinDescription :=
  [ ⟨PIOB, PIO_PB18A_RD, ID_PIOB, PIO_PERIPH_A, PIO_DEFAULT, PIN_ATTR_DIGITAL⟩,
    ⟨PIOB, PIO_PB17A_RF, ID_PIOB, PIO_PERIPH_A, PIO_DEFAULT, PIN_ATTR_DIGITAL⟩,
    ⟨PIOB, PIO_PB19A_RK, ID_PIOB, PIO_PERIPH_A, PIO_DEFAULT, PIN_ATTR_DIGITAL⟩ ]

/-- Record of one `PIO_Configure` call: the four arguments the driver passes. -/
structure PioConfigureCall where
  pPort : PioPort
  ulPinType : EPioType
  ulPin : Nat
  ulPinConfiguration : Nat
  deriving DecidableEq, Repr

/-- Collaborator `PIO_Configure`, modelled as the record of its arguments as
the driver passes them (port, type, pin mask, configuration). -/
def PIO_Configure (p : PinDescription) : PioConfigureCall :=
  ⟨p.pPort, p.ulPinType, p.ulPin, p.ulPinConfiguration⟩

/-- Driver-object state: the fields of `HiFiClass` (HiFi.h).  The two
callback members are C function pointers, modelled as optional addresses
(`none` is the NULL pointer). -/
structure HiFiClass where
  _dataOutAddr : Nat
  _dataInAddr : Nat
  onTxReadyCallback : Option Nat
  onRxReadyCallback : Option Nat
  deriving DecidableEq, Repr

/-- Combined state the driver methods act on: the singleton `HiFi` object,
the SSC peripheral, and a ghost trace of the `PIO_Configure` calls issued. -/
structure DriverState where
  hifi : HiFiClass
  ssc : Ssc
  pinCalls : List PioConfigureCall
  deriving DecidableEq, Repr

/-- SSC transmit holding register address (SSC base 0x40004000, THR at 0x24). -/
def ssc_get_tx_access : Nat := 0x40004024

/-- SSC receive holding register address (SSC base 0x40004000, RHR at 0x20). -/
def ssc_get_rx_access : Nat := 0x40004020

/-- `HiFiClass::begin`: enables the peripheral clock and NVIC line (effects
outside the modelled state), resets the SSC and stores the data register
addresses. -/
def begin (st : DriverState) : DriverState :=
  { st with
    ssc := ssc_reset st.ssc,
    hifi := { st.hifi with _dataOutAddr := ssc_get_tx_access,
                           _dataInAddr := ssc_get_rx_access } }

/-- `HiFiClass::configureTx` (HiFi.cpp lines 84-196): pin-configures the
transmitter pins (only the data pin when the clock is borrowed from the
receiver), resolves the clock and frame options from the arguments and
commits them, then enables the TXRDY interrupt. -/
def configureTx (audioMode : HiFiAudioMode_t) (clkMode : HiFiClockMode_t)
    (bitsPerChannel : Nat) (st : DriverState) : DriverState :=
  let tx_clk_option := clock_opt_zero
  let tx_data_frame_option := data_frame_opt_zero
  let endpin := if clkMode = HIFI_CLK_MODE_USE_TK_RK_CLK then 1 else SSCTXPins.length
  let newPinCalls := (SSCTXPins.take endpin).map PIO_Configure
  let tx_clk_option :=
    match clkMode with
    | HIFI_CLK_MODE_USE_EXT_CLKS =>
      let o := { tx_clk_option with ul_cks := SSC_TCMR_CKS_RK }
      if audioMode = HIFI_AUDIO_MODE_MONO_RIGHT then
        { o with ul_start_sel := SSC_TCMR_START_RF_RISING }
      else
        { o with ul_start_sel := SSC_TCMR_START_RF_FALLING }
    | HIFI_CLK_MODE_USE_TK_RK_CLK =>
      { tx_clk_option with ul_cks := SSC_TCMR_CKS_TK,
                           ul_start_sel := SSC_TCMR_START_RECEIVE }
  let tx_clk_option :=
    { tx_clk_option with ul_ckg := SSC_TCMR_CKG_NONE, ul_period := 0,
                         ul_cko := SSC_TCMR_CKO_NONE, ul_cki := 0, ul_sttdly := 1 }
  let tx_data_frame_option :=
    { tx_data_frame_option with
      ul_datlen := (bitsPerChannel + 0xFFFFFFFF) % 0x100000000,
      ul_msbf := SSC_TFMR_MSBF,
      ul_datnb := if audioMode = HIFI_AUDIO_MODE_STEREO then 1 else 0,
      ul_fsos := SSC_TFMR_FSOS_NONE }
  let ssc := ssc_set_transmitter st.ssc tx_clk_option tx_data_frame_option
  let ssc := ssc_enable_interrupt ssc SSC_IER_TXRDY
  { st with ssc := ssc, pinCalls := st.pinCalls ++ newPinCalls }

/-- `HiFiClass::configureRx` (HiFi.cpp lines 214-315).  Note: the source
computes `endpin` exactly as `configureTx` does, but its pin loop bound is
`sizeof(SSCRXPins)/sizeof(SSCRXPins[0])`, not `endpin`, so all three
receiver pins are configured regardless of clock mode; the embedding
reproduces that loop bound. -/
def configureRx (audioMode : HiFiAudioMode_t) (clkMode : HiFiClockMode_t)
    (bitsPerChannel : Nat) (st : DriverState) : DriverState :=
  let rx_clk_option := clock_opt_zero
  let rx_data_frame_option := data_frame_opt_zero
  let endpin := if clkMode = HIFI_CLK_MODE_USE_TK_RK_CLK then 1 else SSCRXPins.length
  let _ := endpin
  let newPinCalls := (SSCRXPins.take SSCRXPins.length).map PIO_Configure
  let rx_clk_option :=
    match clkMode with
    | HIFI_CLK_MODE_USE_EXT_CLKS =>
      let o := { rx_clk_option with ul_cks := SSC_RCMR_CKS_RK }
      if audioMode = HIFI_AUDIO_MODE_MONO_RIGHT then
        { o with ul_start_sel := SSC_RCMR_START_RF_RISING }
      else
        { o with ul_start_sel := SSC_RCMR_START_RF_FALLING }
    | HIFI_CLK_MODE_USE_TK_RK_CLK =>
      { rx_clk_option with ul_cks := SSC_RCMR_CKS_TK,
                           ul_start_sel := SSC_RCMR_START_TRANSMIT }
  let rx_clk_option :=
    { rx_clk_option with ul_ckg := SSC_RCMR_CKG_NONE, ul_period := 0,
                         ul_cko := SSC_RCMR_CKO_NONE, ul_cki := SSC_RCMR_CKI,
                         ul_sttdly := 1 }
  let rx_data_frame_option :=
    { rx_data_frame_option with
      ul_datlen := (bitsPerChannel + 0xFFFFFFFF) % 0x100000000,
      ul_msbf := SSC_RFMR_MSBF,
      ul_datnb := if audioMode = HIFI_AUDIO_MODE_STEREO then 1 else 0,
      ul_fsos := SSC_TFMR_FSOS_NONE }
  let ssc := ssc_set_receiver st.ssc rx_clk_option rx_data_frame_option
  let ssc := ssc_enable_interrupt ssc SSC_IER_RXRDY
  { st with ssc := ssc, pinCalls := st.pinCalls ++ newPinCalls }

/-- `HiFiClass::enableTx`: turns the transmitter data path on or off. -/
def enableTx (enable : Bool) (st : DriverState) : DriverState :=
  if enable then { st with ssc := ssc_enable_tx st.ssc }
  else { st with ssc := ssc_disable_tx st.ssc }

/-- `HiFiClass::enableRx`: turns the receiver data path on or off. -/
def enableRx (enable : Bool) (st : DriverState) : DriverState :=
  if enable then { st with ssc := ssc_enable_rx st.ssc }
  else { st with ssc := ssc_disable_rx st.ssc }

/-- `HiFiClass::onTxReady`: registers the transmit-ready callback pointer. -/
def onTxReady (function : Option Nat) (st : DriverState) : DriverState :=
  { st with hifi := { st.hifi with onTxReadyCallback := function } }

/-- `HiFiClass::onRxReady`: registers the receive-ready callback pointer. -/
def onRxReady (function : Option Nat) (st : DriverState) : DriverState :=
  { st with hifi := { st.hifi with onRxReadyCallback := function } }

/-- Direction of a serviced ready event. -/
inductive Direction where
  | tx
  | rx
  deriving DecidableEq, Repr

/-- One callback invocation performed by `onService`: which direction's
callback, the function pointer called, and the channel identity passed. -/
structure CallbackEvent where
  dir : Direction
  fn : Nat
  channel : HiFiChannelID_t
  deriving DecidableEq, Repr

/-- `HiFiClass::onService` (HiFi.cpp lines 333-383), the interrupt handler:
latches the status register once, then services transmit and receive in that
order, classifying each ready event by its frame-sync status bit and calling
the registered callback, if any.  Returns the ordered list of callback
invocations together with the updated state. -/
def onService (st : DriverState) : List CallbackEvent × DriverState :=
  let (status, ssc) := ssc_get_status st.ssc
  let txEvents : List CallbackEvent :=
    if ssc_is_tx_ready ssc = SSC_RC_YES then
      match st.hifi.onTxReadyCallback with
      | some f =>
        let channel :=
          if status &&& SSC_IER_TXSYN ≠ 0 then HIFI_CHANNEL_ID_1 else HIFI_CHANNEL_ID_2
        [⟨Direction.tx, f, channel⟩]
      | none => []
    else []
  let rxEvents : List CallbackEvent :=
    if ssc_is_rx_ready ssc = SSC_RC_YES then
      match st.hifi.onRxReadyCallback with
      | some f =>
        let channel :=
          if status &&& SSC_IER_RXSYN ≠ 0 then HIFI_CHANNEL_ID_1 else HIFI_CHANNEL_ID_2
        [⟨Direction.rx, f, channel⟩]
      | none => []
    else []
  (txEvents ++ rxEvents, { st with ssc := ssc })

/-- `SSC_Handler`, the interrupt vector entry: dispatches to `HiFi.onService`. -/
def SSC_Handler (st : DriverState) : List CallbackEvent × DriverState :=
  onService st

/- Specification-side interpretations and helper observers. -/

/-- Physical clock line on the SSC: the transmit clock pin TK, the receive
clock pin RK, or the internal divided master clock. -/
inductive ClockPin where
  | tkPin
  | rkPin
  | internalMck
  deriving DecidableEq, Repr

/-- Physical pin selected by a TCMR clock-source value.  The source comments
(HiFi.cpp lines 124-130 and 148-154) document that the vendor macro names
for the transmitter are swapped relative to the physical pins:
`SSC_TCMR_CKS_RK` actually selects the TK pin and `SSC_TCMR_CKS_TK`
actually selects the RK pin. -/
def txClockSourcePin (cks : Nat) : ClockPin :=
  if cks = SSC_TCMR_CKS_TK then ClockPin.rkPin
  else if cks = SSC_TCMR_CKS_RK then ClockPin.tkPin
  else ClockPin.internalMck

/-- Physical pin selected by an RCMR clock-source value (the receiver-side
macros carry their plain meaning: `SSC_RCMR_CKS_TK` is the TK pin,
`SSC_RCMR_CKS_RK` the RK pin). -/
def rxClockSourcePin (cks : Nat) : ClockPin :=
  if cks = SSC_RCMR_CKS_TK then ClockPin.tkPin
  else if cks = SSC_RCMR_CKS_RK then ClockPin.rkPin
  else ClockPin.internalMck

/-- Edge of the frame clock on which an edge-triggered start condition fires. -/
inductive TriggerEdge where
  | rising
  | falling
  deriving DecidableEq, Repr

/-- Start-trigger edge resolved from a start-selector value, when the
selector is one of the RF edge triggers (the TCMR and RCMR encodings of the
RF_FALLING and RF_RISING selectors coincide). -/
def startEdge (start_sel : Nat) : Option TriggerEdge :=
  if start_sel = SSC_TCMR_START_RF_FALLING then some TriggerEdge.falling
  else if start_sel = SSC_TCMR_START_RF_RISING then some TriggerEdge.rising
  else none

/-- Channel count per frame committed by a frame-option record: the DATNB
register field counts data words per frame zero-based, so the committed
count is `ul_datnb + 1`. -/
def channelsPerFrame (f : data_frame_opt_t) : Nat := f.ul_datnb + 1

/-- Transmit-direction callback invocations of a service trace. -/
def txInvocations (evs : List CallbackEvent) : List CallbackEvent :=
  evs.filter (fun e => e.dir = Direction.tx)

/-- Receive-direction callback invocations of a service trace. -/
def rxInvocations (evs : List CallbackEvent) : List CallbackEvent :=
  evs.filter (fun e => e.dir = Direction.rx)

/-- Specification-side classifier, written from the spec's words (section
4.4): a function of the single latched status value and the registered
callbacks only.  If the transmit-ready bit of the latched status is set and
a transmit callback is registered, it is invoked with channel 1 when the
TXSYN bit is set and channel 2 otherwise; then, independently, the same for
receive with the RXSYN bit. -/
def classifierSpec (drv : HiFiClass) (status : Nat) : List CallbackEvent :=
  (if status &&& SSC_SR_TXRDY ≠ 0 then
    match drv.onTxReadyCallback with
    | some f =>
      [⟨Direction.tx, f,
        if status &&& SSC_SR_TXSYN ≠ 0 then HIFI_CHANNEL_ID_1 else HIFI_CHANNEL_ID_2⟩]
    | none => []
  else []) ++
  (if status &&& SSC_SR_RXRDY ≠ 0 then
    match drv.onRxReadyCallback with
    | some f =>
      [⟨Direction.rx, f,
        if status &&& SSC_SR_RXSYN ≠ 0 then HIFI_CHANNEL_ID_1 else HIFI_CHANNEL_ID_2⟩]
    | none => []
  else []) 

/- Concrete states used to exercise the theorems on closed inputs. -/

/-- Driver state with given callback registrations and status flags: both
data paths disabled, all mode registers at their reset value, empty pin
trace, ghost read counter zero. -/
def sampleState (otx orx : Option Nat) (txr rxr txs rxs : Bool) : DriverState :=
  ⟨⟨0, 0, otx, orx⟩,
   ⟨txr, rxr, txs, rxs, false, false,
    clock_opt_zero, data_frame_opt_zero, clock_opt_zero, data_frame_opt_zero, 0, 0⟩,
   []⟩

/-- Driver state with no callbacks registered and all status flags clear. -/
def initialDriverState : DriverState :=
  sampleState none none false false false false

/-- C1: the claim says both configure calls claim only their direction's
data pin under the shared clock mode `HIFI_CLK_MODE_USE_TK_RK_CLK`.
`configureTx` does (only the TD entry of `SSCTXPins` is pin-configured),
but `configureRx` pin-configures all three entries of `SSCRXPins` (RD, RF
and RK): its loop bound is the full table size and the computed `endpin`
is never used, so the receive direction's frame-sync and clock pins are
claimed even in shared-clock mode.  This theorem evaluates both calls at
the failing input. -/
theorem configureRx_shared_clock_configures_all_rx_pins :
    (configureTx HIFI_AUDIO_MODE_STEREO HIFI_CLK_MODE_USE_TK_RK_CLK 16
        initialDriverState).pinCalls
      = [⟨PIOA, PIO_PERIPH_B, PIO_PA16B_TD, PIO_DEFAULT⟩] ∧
    (configureRx HIFI_AUDIO_MODE_STEREO HIFI_CLK_MODE_USE_TK_RK_CLK 16
        initialDriverState).pinCalls
      = [⟨PIOB, PIO_PERIPH_A, PIO_PB18A_RD, PIO_DEFAULT⟩,
         ⟨PIOB, PIO_PERIPH_A, PIO_PB17A_RF, PIO_DEFAULT⟩,
         ⟨PIOB, PIO_PERIPH_A, PIO_PB19A_RK, PIO_DEFAULT⟩] := by
  exact ⟨rfl, rfl⟩

/-- C2: every invocation of `onService` reads the hardware status register
exactly once (the ghost counter of `ssc_get_status` reads advances by one),
and the full list of callback invocations — both the transmit and the
receive servicing decisions — is a function of that single latched status
value, as computed by the specification-side `classifierSpec`. -/
theorem onService_single_status_read_serves_both (st : DriverState) :
    (onService st).2.ssc.srReads = st.ssc.srReads + 1 ∧
    (onService st).1 = classifierSpec st.hifi (srValue st.ssc) := by
  obtain ⟨⟨doa, dia, otx, orx⟩, ⟨txr, rxr, txs, rxs, txe, rxe, tc, tf, rc, rf, im, rd⟩,
    pins⟩ := st
  refine ⟨rfl, ?_⟩
  cases txr <;> cases rxr <;> cases txs <;> cases rxs <;> cases txe <;> cases rxe <;>
    cases otx <;> cases orx <;>
    simp [onService, classifierSpec, ssc_get_status, srValue, ssc_is_tx_ready,
      ssc_is_rx_ready, SSC_RC_YES, SSC_RC_NO, SSC_SR_TXRDY, SSC_SR_RXRDY, SSC_SR_TXSYN,
      SSC_SR_RXSYN, SSC_SR_TXEN, SSC_SR_RXEN, SSC_IER_TXRDY, SSC_IER_RXRDY,
      SSC_IER_TXSYN, SSC_IER_RXSYN] <;> decide

/-- C3: with the shared clock mode `HIFI_CLK_MODE_USE_TK_RK_CLK`,
`configureTx` commits clock source `SSC_TCMR_CKS_TK` — which, per the
source comments on the vendor macro swap, is the receive direction's bit
clock pin RK — and start selector `SSC_TCMR_START_RECEIVE`; symmetrically
`configureRx` commits `SSC_RCMR_CKS_TK`, the transmit direction's bit
clock pin TK, and start selector `SSC_RCMR_START_TRANSMIT`. -/
theorem configure_shared_clock_cross_selects (audioMode : HiFiAudioMode_t)
    (bits : Nat) (st : DriverState) :
    ((configureTx audioMode HIFI_CLK_MODE_USE_TK_RK_CLK bits st).ssc.tcmr.ul_cks
        = SSC_TCMR_CKS_TK ∧
      txClockSourcePin
        ((configureTx audioMode HIFI_CLK_MODE_USE_TK_RK_CLK bits st).ssc.tcmr.ul_cks)
        = ClockPin.rkPin ∧
      (configureTx audioMode HIFI_CLK_MODE_USE_TK_RK_CLK bits st).ssc.tcmr.ul_start_sel
        = SSC_TCMR_START_RECEIVE) ∧
    ((configureRx audioMode HIFI_CLK_MODE_USE_TK_RK_CLK bits st).ssc.rcmr.ul_cks
        = SSC_RCMR_CKS_TK ∧
      rxClockSourcePin
        ((configureRx audioMode HIFI_CLK_MODE_USE_TK_RK_CLK bits st).ssc.rcmr.ul_cks)
        = ClockPin.tkPin ∧
      (configureRx audioMode HIFI_CLK_MODE_USE_TK_RK_CLK bits st).ssc.rcmr.ul_start_sel
        = SSC_RCMR_START_TRANSMIT) := by
  exact ⟨⟨rfl, rfl, rfl⟩, ⟨rfl, rfl, rfl⟩⟩

/-- C4: in any `onService` invocation whose latched status has the
transmit-ready condition and a registered transmit callback, the transmit
callback is invoked with channel 1 exactly when the TXSYN frame-sync bit
of the latched status is set, and with channel 2 when it is clear; the
receive callback is governed the same way by the RXSYN bit. -/
theorem onService_sync_bit_selects_channel (st : DriverState) :
    (st.ssc.txrdy = true → ∀ f, st.hifi.onTxReadyCallback = some f →
      txInvocations (onService st).1 =
        [⟨Direction.tx, f,
          if st.ssc.txsyn then HIFI_CHANNEL_ID_1 else HIFI_CHANNEL_ID_2⟩]) ∧
    (st.ssc.rxrdy = true → ∀ g, st.hifi.onRxReadyCallback = some g →
      rxInvocations (onService st).1 =
        [⟨Direction.rx, g,
          if st.ssc.rxsyn then HIFI_CHANNEL_ID_1 else HIFI_CHANNEL_ID_2⟩]) := by
  obtain ⟨⟨doa, dia, otx, orx⟩, ⟨txr, rxr, txs, rxs, txe, rxe, tc, tf, rc, rf, im, rd⟩,
    pins⟩ := st
  constructor
  · intro htx f hf
    subst htx
    subst hf
    cases rxr <;> cases txs <;> cases rxs <;> cases txe <;> cases rxe <;> cases orx <;>
      simp [onService, txInvocations, ssc_get_status, srValue, ssc_is_tx_ready,
        ssc_is_rx_ready, SSC_RC_YES, SSC_RC_NO, SSC_SR_TXRDY, SSC_SR_RXRDY, SSC_SR_TXSYN,
        SSC_SR_RXSYN, SSC_SR_TXEN, SSC_SR_RXEN, SSC_IER_TXRDY, SSC_IER_RXRDY,
        SSC_IER_TXSYN, SSC_IER_RXSYN] <;> decide
  · intro hrx g hg
    subst hrx
    subst hg
    cases txr <;> cases txs <;> cases rxs <;> cases txe <;> cases rxe <;> cases otx <;>
      simp [onService, rxInvocations, ssc_get_status, srValue, ssc_is_tx_ready,
        ssc_is_rx_ready, SSC_RC_YES, SSC_RC_NO, SSC_SR_TXRDY, SSC_SR_RXRDY, SSC_SR_TXSYN,
        SSC_SR_RXSYN, SSC_SR_TXEN, SSC_SR_RXEN, SSC_IER_TXRDY, SSC_IER_RXRDY,
        SSC_IER_TXSYN, SSC_IER_RXSYN] <;> decide

/-- Witness for C4: with both ready bits set, TXSYN set and RXSYN clear,
the transmit callback at address 100 is invoked with channel 1 and the
receive callback at address 200 with channel 2. -/
theorem onService_sync_bit_selects_channel_witness :
    txInvocations (onService (sampleState (some 100) (some 200) true true true false)).1 =
      [⟨Direction.tx, 100, HIFI_CHANNEL_ID_1⟩] ∧
    rxInvocations (onService (sampleState (some 100) (some 200) true true true false)).1 =
      [⟨Direction.rx, 200, HIFI_CHANNEL_ID_2⟩] :=
  ⟨(onService_sync_bit_selects_channel
      (sampleState (some 100) (some 200) true true true false)).1 rfl 100 rfl,
   (onService_sync_bit_selects_channel
      (sampleState (some 100) (some 200) true true true false)).2 rfl 200 rfl⟩

/-- C5: when one invocation of `onService` finds both the transmit-ready
and receive-ready conditions with both callbacks registered, its invocation
trace is exactly the two-element list transmit-event then receive-event:
each callback fires exactly once, transmit before receive. -/
theorem onService_tx_serviced_before_rx (st : DriverState) (f g : Nat)
    (htx : st.ssc.txrdy = true) (hrx : st.ssc.rxrdy = true)
    (hf : st.hifi.onTxReadyCallback = some f)
    (hg : st.hifi.onRxReadyCallback = some g) :
    (onService st).1 =
      [⟨Direction.tx, f, if st.ssc.txsyn then HIFI_CHANNEL_ID_1 else HIFI_CHANNEL_ID_2⟩,
       ⟨Direction.rx, g, if st.ssc.rxsyn then HIFI_CHANNEL_ID_1 else HIFI_CHANNEL_ID_2⟩] := by
  obtain ⟨⟨doa, dia, otx, orx⟩, ⟨txr, rxr, txs, rxs, txe, rxe, tc, tf, rc, rf, im, rd⟩,
    pins⟩ := st
  subst htx
  subst hrx
  subst hf
  subst hg
  cases txs <;> cases rxs <;> cases txe <;> cases rxe <;>
    simp [onService, ssc_get_status, srValue, ssc_is_tx_ready, ssc_is_rx_ready,
      SSC_RC_YES, SSC_RC_NO, SSC_SR_TXRDY, SSC_SR_RXRDY, SSC_SR_TXSYN, SSC_SR_RXSYN,
      SSC_SR_TXEN, SSC_SR_RXEN, SSC_IER_TXRDY, SSC_IER_RXRDY, SSC_IER_TXSYN,
      SSC_IER_RXSYN] <;> decide

/-- Witness for C5: with both ready bits set, TXSYN set and RXSYN clear,
the trace is the transmit invocation followed by the receive invocation. -/
theorem onService_tx_serviced_before_rx_witness :
    (onService (sampleState (some 100) (some 200) true true true false)).1 =
      [⟨Direction.tx, 100, HIFI_CHANNEL_ID_1⟩,
       ⟨Direction.rx, 200, HIFI_CHANNEL_ID_2⟩] :=
  onService_tx_serviced_before_rx
    (sampleState (some 100) (some 200) true true true false) 100 200 rfl rfl rfl rfl

/-- C6: under the external-clock mode `HIFI_CLK_MODE_USE_EXT_CLKS` (the
branch in which the start trigger is edge-based), both configure calls
resolve the start-trigger edge of the frame clock to falling, except for
audio mode mono-right where it is rising. -/
theorem configure_ext_clks_start_edge (audioMode : HiFiAudioMode_t) (bits : Nat)
    (st : DriverState) :
    startEdge
        ((configureTx audioMode HIFI_CLK_MODE_USE_EXT_CLKS bits st).ssc.tcmr.ul_start_sel)
      = some (if audioMode = HIFI_AUDIO_MODE_MONO_RIGHT then TriggerEdge.rising
              else TriggerEdge.falling) ∧
    startEdge
        ((configureRx audioMode HIFI_CLK_MODE_USE_EXT_CLKS bits st).ssc.rcmr.ul_start_sel)
      = some (if audioMode = HIFI_AUDIO_MODE_MONO_RIGHT then TriggerEdge.rising
              else TriggerEdge.falling) := by
  cases audioMode <;> exact ⟨rfl, rfl⟩

/-- C7: for every audio mode, clock mode and word width, the channel count
per frame committed to the hardware (the zero-based DATNB field plus one)
is 2 for stereo and 1 for the two mono modes, for both directions. -/
theorem configure_channels_per_frame (audioMode : HiFiAudioMode_t)
    (clkMode : HiFiClockMode_t) (bits : Nat) (st : DriverState) :
    channelsPerFrame (configureTx audioMode clkMode bits st).ssc.tfmr
      = (if audioMode = HIFI_AUDIO_MODE_STEREO then 2 else 1) ∧
    channelsPerFrame (configureRx audioMode clkMode bits st).ssc.rfmr
      = (if audioMode = HIFI_AUDIO_MODE_STEREO then 2 else 1) := by
  cases audioMode <;> cases clkMode <;> exact ⟨rfl, rfl⟩

/-- C8: in any `onService` invocation in which a direction's ready
condition holds but that direction's callback pointer is NULL, no callback
is invoked for that direction; `onService` is a total function with no
error result, so nothing is raised or recorded. -/
theorem onService_skips_unregistered_callback (st : DriverState) :
    (st.ssc.txrdy = true → st.hifi.onTxReadyCallback = none →
      txInvocations (onService st).1 = []) ∧
    (st.ssc.rxrdy = true → st.hifi.onRxReadyCallback = none →
      rxInvocations (onService st).1 = []) := by
  obtain ⟨⟨doa, dia, otx, orx⟩, ⟨txr, rxr, txs, rxs, txe, rxe, tc, tf, rc, rf, im, rd⟩,
    pins⟩ := st
  constructor
  · intro htx hf
    subst htx
    subst hf
    cases rxr <;> cases txs <;> cases rxs <;> cases txe <;> cases rxe <;> cases orx <;>
      simp [onService, txInvocations, ssc_get_status, srValue, ssc_is_tx_ready,
        ssc_is_rx_ready, SSC_RC_YES, SSC_RC_NO, SSC_SR_TXRDY, SSC_SR_RXRDY, SSC_SR_TXSYN,
        SSC_SR_RXSYN, SSC_SR_TXEN, SSC_SR_RXEN, SSC_IER_TXRDY, SSC_IER_RXRDY,
        SSC_IER_TXSYN, SSC_IER_RXSYN]
  · intro hrx hg
    subst hrx
    subst hg
    cases txr <;> cases txs <;> cases rxs <;> cases txe <;> cases rxe <;> cases otx <;>
      simp [onService, rxInvocations, ssc_get_status, srValue, ssc_is_tx_ready,
        ssc_is_rx_ready, SSC_RC_YES, SSC_RC_NO, SSC_SR_TXRDY, SSC_SR_RXRDY, SSC_SR_TXSYN,
        SSC_SR_RXSYN, SSC_SR_TXEN, SSC_SR_RXEN, SSC_IER_TXRDY, SSC_IER_RXRDY,
        SSC_IER_TXSYN, SSC_IER_RXSYN]

/-- Witness for C8: with both ready bits set and no callbacks registered,
the invocation performs no transmit and no receive callback. -/
theorem onService_skips_unregistered_callback_witness :
    txInvocations (onService (sampleState none none true true true true)).1 = [] ∧
    rxInvocations (onService (sampleState none none true true true true)).1 = [] :=
  ⟨(onService_skips_unregistered_callback
      (sampleState none none true true true true)).1 rfl rfl,
   (onService_skips_unregistered_callback
      (sampleState none none true true true true)).2 rfl rfl⟩

/-- C9: disabling a direction twice in a row leaves the hardware (and the
whole modelled driver state) identical to disabling it once, for both
`enableTx false` and `enableRx false`. -/
theorem disable_twice_equals_disable_once (st : DriverState) :
    enableTx false (enableTx false st) = enableTx false st ∧
    enableRx false (enableRx false st) = enableRx false st :=
  ⟨rfl, rfl⟩

/-- C10: the two callback pointers are written only by the registration
calls: `begin`, `configureTx`, `configureRx`, `enableTx`, `enableRx` and
`onService` leave both pointers unchanged, and registering one
direction's callback leaves the other direction's pointer unchanged. -/
theorem callbacks_changed_only_by_registration (st : DriverState) (f : Option Nat)
    (audioMode : HiFiAudioMode_t) (clkMode : HiFiClockMode_t) (bits : Nat) (en : Bool) :
    ((begin st).hifi.onTxReadyCallback = st.hifi.onTxReadyCallback ∧
      (begin st).hifi.onRxReadyCallback = st.hifi.onRxReadyCallback) ∧
    ((configureTx audioMode clkMode bits st).hifi.onTxReadyCallback
        = st.hifi.onTxReadyCallback ∧
      (configureTx audioMode clkMode bits st).hifi.onRxReadyCallback
        = st.hifi.onRxReadyCallback) ∧
    ((configureRx audioMode clkMode bits st).hifi.onTxReadyCallback
        = st.hifi.onTxReadyCallback ∧
      (configureRx audioMode clkMode bits st).hifi.onRxReadyCallback
        = st.hifi.onRxReadyCallback) ∧
    ((enableTx en st).hifi.onTxReadyCallback = st.hifi.onTxReadyCallback ∧
      (enableTx en st).hifi.onRxReadyCallback = st.hifi.onRxReadyCallback) ∧
    ((enableRx en st).hifi.onTxReadyCallback = st.hifi.onTxReadyCallback ∧
      (enableRx en st).hifi.onRxReadyCallback = st.hifi.onRxReadyCallback) ∧
    ((onService st).2.hifi.onTxReadyCallback = st.hifi.onTxReadyCallback ∧
      (onService st).2.hifi.onRxReadyCallback = st.hifi.onRxReadyCallback) ∧
    ((onTxReady f st).hifi.onRxReadyCallback = st.hifi.onRxReadyCallback) ∧
    ((onRxReady f st).hifi.onTxReadyCallback = st.hifi.onTxReadyCallback) := by
  cases en <;>
    exact ⟨⟨rfl, rfl⟩, ⟨rfl, rfl⟩, ⟨rfl, rfl⟩, ⟨rfl, rfl⟩, ⟨rfl, rfl⟩, ⟨rfl, rfl⟩,
      rfl, rfl⟩
